import Mathlib

/-!
Verification of the awsKendra document ingestion and retrieval application.

Text is modelled as `List Char` (Python `str`), Python dictionaries with a
fixed key set as structures, and the external AWS clients (boto3 Kendra
client) and third-party extraction libraries (pypdf, python-docx, pandas,
json) as explicit function parameters.  Fallible code returns `Except`.
The `while` loop of `chunk_text` is modelled with explicit fuel so that its
behaviour on non-advancing configurations is observable.
-/

namespace AwsKendra

/-! ## Python slicing primitives -/

/-- Clamp a Python slice index to the interval `[0, len]`: a negative index
counts from the end of the sequence, a too-large index is clamped to `len`. -/
def pyIndex (len : Nat) (i : Int) : Nat :=
  if i < 0 then len - (-i).toNat else min i.toNat len

/-- Python slice `l[a:b]` (step 1) on a character list. -/
def pySlice (l : List Char) (a b : Int) : List Char :=
  (l.take (pyIndex l.length b)).drop (pyIndex l.length a)

/-! ## DocumentProcessor.chunk_text

Source (`src/utils/document_processor.py`):
```
chunks = []
start = 0
text_length = len(text)
while start < text_length:
    end = start + chunk_size
    chunk = text[start:end]
    chunks.append(chunk)
    start = end - overlap
return chunks
```
The loop is modelled with fuel: `none` means the fuel bound was reached
before the loop condition `start < text_length` became false. -/

/-- One step of the `chunk_text` while loop, with fuel.  `start` is an `Int`
because `end - overlap` can drop below zero when `overlap > chunk_size`. -/
def chunkTextAux (chunk_size overlap : Nat) (text : List Char) :
    Nat → Int → Option (List (List Char))
  | 0, _ => none
  | fuel + 1, start =>
    if start < (text.length : Int) then
      match chunkTextAux chunk_size overlap text fuel (start + chunk_size - overlap) with
      | none => none
      | some rest => some (pySlice text start (start + chunk_size) :: rest)
    else
      some []

/-- `DocumentProcessor.chunk_text`, run with fuel `len(text) + 1`, which is
sufficient for every configuration with `overlap < chunk_size`. -/
def chunk_text (text : List Char) (chunk_size : Nat := 1000) (overlap : Nat := 200) :
    Option (List (List Char)) :=
  chunkTextAux chunk_size overlap text (text.length + 1) 0

/-- Closed form of the chunk list when `overlap < chunk_size`: chunk `i` is
`text[i*(chunk_size-overlap) : i*(chunk_size-overlap)+chunk_size]`, and there
are `ceil(len(text) / (chunk_size - overlap))` chunks. -/
def chunkList (text : List Char) (chunk_size overlap : Nat) : List (List Char) :=
  let s := chunk_size - overlap
  (List.range ((text.length + s - 1) / s)).map
    (fun i => (text.drop (i * s)).take chunk_size)

/-- Python `s[-n:]`: the last `min n (len s)` characters of `s` (for `n ≥ 1`). -/
def lastChars (n : Nat) (l : List Char) : List Char :=
  l.drop (l.length - n)

/-! ## Configuration (`src/config/config.py`) -/

namespace Config

/-- `Config.KENDRA_MAX_RESULTS = 5`. -/
def KENDRA_MAX_RESULTS : Nat := 5

/-- `Config.SUPPORTED_FILE_TYPES = ['pdf', 'txt', 'docx', 'csv', 'json']`. -/
def SUPPORTED_FILE_TYPES : List String := ["pdf", "txt", "docx", "csv", "json"]

end Config

/-! ## KendraService (`src/services/kendra_service.py`)

The boto3 Kendra client is external; it is modelled as a record of fallible
functions (one per API call used by the service).  A backend response field
read with `.get(key, default)` in Python is modelled as an `Option`
(`none` = key absent). -/

/-- One raw `ResultItems` entry of a Kendra `query` response.  Nested
`.get` chains such as `item.get('ScoreAttributes', {}).get('ScoreConfidence',
'UNKNOWN')` collapse to a single `Option String`. -/
structure ResultItem where
  itemId : Option String
  itemType : Option String
  scoreConfidence : Option String
  documentTitleText : Option String
  documentExcerptText : Option String
  documentURI : Option String
  documentAttributes : List (String × String)
deriving DecidableEq

/-- Raw Kendra `query` response: the `ResultItems` list. -/
structure QueryResponse where
  ResultItems : List ResultItem
deriving DecidableEq

/-- One raw `Suggestions` entry: `item.get('Value', {}).get('Text', {})
.get('Text', '')` collapses to an `Option String`. -/
structure SuggestionItem where
  valueTextText : Option String
deriving DecidableEq

/-- Raw Kendra `get_query_suggestions` response. -/
structure SuggestResponse where
  Suggestions : List SuggestionItem
deriving DecidableEq

/-- Raw Kendra `batch_put_document` response. -/
structure BatchPutResponse where
  FailedDocuments : List (String × String)
deriving DecidableEq

/-- Raw Kendra `describe_index` response. -/
structure DescribeResponse where
  name : Option String
  status : Option String
  description : Option String
  createdAt : Option String
  updatedAt : Option String
deriving DecidableEq

/-- The boto3 Kendra client: one fallible function per API call used by
`KendraService`.  The first `String` argument is always the index id. -/
structure KendraClient where
  queryApi : String → String → Nat → Except String QueryResponse
  batchPutApi : String → List (String × String) → Except String BatchPutResponse
  batchDeleteApi : String → List String → Except String Unit
  suggestionsApi : String → String → Nat → Except String SuggestResponse
  describeApi : String → Except String DescribeResponse

/-- Errors raised by `KendraService` methods.  `notConnected` is the
`"Kendra client not initialized"` exception; the others wrap a backend
failure message. -/
inductive KendraError where
  | notConnected
  | queryFailed (msg : String)
  | batchPutFailed (msg : String)
  | deletionFailed (msg : String)
  | describeFailed (msg : String)
deriving DecidableEq

/-- A normalized search result, one entry of the `items` list built by
`KendraService.query`. -/
structure SearchResult where
  resultId : String
  resultType : String
  score : String
  document_title : String
  document_excerpt : String
  document_uri : String
  attributes : List (String × String)
deriving DecidableEq

/-- The dictionary returned by `KendraService.query`. -/
structure QueryResults where
  query : String
  total_results : Nat
  items : List SearchResult
deriving DecidableEq

/-- Normalization of one `ResultItems` entry (loop body of
`KendraService.query`). -/
def normalizeItem (item : ResultItem) : SearchResult where
  resultId := item.itemId.getD ""
  resultType := item.itemType.getD ""
  score := item.scoreConfidence.getD "UNKNOWN"
  document_title := item.documentTitleText.getD "Untitled"
  document_excerpt := item.documentExcerptText.getD ""
  document_uri := item.documentURI.getD ""
  attributes := item.documentAttributes

/-- `KendraService` state: `self.client` (`None` until
`initialize_client` succeeds) and `self.index_id`. -/
structure KendraService where
  client : Option KendraClient
  index_id : String

/-- `KendraService.query`.  `max_results = none` models the Python default
argument `None`, replaced by `Config.KENDRA_MAX_RESULTS`. -/
def KendraService.query (svc : KendraService) (query_text : String)
    (max_results : Option Nat) : Except KendraError QueryResults :=
  match svc.client with
  | none => .error .notConnected
  | some c =>
    let mr := match max_results with
      | none => Config.KENDRA_MAX_RESULTS
      | some m => m
    match c.queryApi svc.index_id query_text mr with
    | .error e => .error (.queryFailed ("Kendra query failed: " ++ e))
    | .ok resp =>
      .ok { query := query_text
            total_results := resp.ResultItems.length
            items := resp.ResultItems.map normalizeItem }

/-- `KendraService.batch_put_document`. -/
def KendraService.batch_put_document (svc : KendraService)
    (documents : List (String × String)) :
    Except KendraError (Bool × List (String × String)) :=
  match svc.client with
  | none => .error .notConnected
  | some c =>
    match c.batchPutApi svc.index_id documents with
    | .error e => .error (.batchPutFailed ("Batch document upload failed: " ++ e))
    | .ok resp => .ok (true, resp.FailedDocuments)

/-- `KendraService.delete_document`. -/
def KendraService.delete_document (svc : KendraService) (document_id : String) :
    Except KendraError Bool :=
  match svc.client with
  | none => .error .notConnected
  | some c =>
    match c.batchDeleteApi svc.index_id [document_id] with
    | .error e => .error (.deletionFailed ("Document deletion failed: " ++ e))
    | .ok _ => .ok true

/-- `KendraService.get_query_suggestions`.  Note the source returns `[]`
both when the client is not initialized and when the backend call fails;
no exception ever escapes this method. -/
def KendraService.get_query_suggestions (svc : KendraService) (query_text : String)
    (max_suggestions : Nat := 5) : Except KendraError (List String) :=
  match svc.client with
  | none => .ok []
  | some c =>
    match c.suggestionsApi svc.index_id query_text max_suggestions with
    | .error _ => .ok []
    | .ok resp => .ok (resp.Suggestions.map (fun item => item.valueTextText.getD ""))

/-- The dictionary returned by `KendraService.describe_index`. -/
structure IndexInfo where
  name : String
  status : String
  description : String
  created_at : String
  updated_at : String
deriving DecidableEq

/-- `KendraService.describe_index`. -/
def KendraService.describe_index (svc : KendraService) :
    Except KendraError IndexInfo :=
  match svc.client with
  | none => .error .notConnected
  | some c =>
    match c.describeApi svc.index_id with
    | .error e => .error (.describeFailed ("Failed to describe index: " ++ e))
    | .ok r =>
      .ok { name := r.name.getD ""
            status := r.status.getD ""
            description := r.description.getD ""
            created_at := r.createdAt.getD ""
            updated_at := r.updatedAt.getD "" }

/-! ## Session state (`src/utils/session_manager.py`) -/

/-- One chat message appended by `add_to_chat_history`. -/
structure ChatMessage where
  role : String
  content : String
  timestamp : String
  sources : List String
  confidence : Option String
deriving DecidableEq

/-- The `analytics_data` dictionary of the session state. -/
structure AnalyticsData where
  queries : List (String × String)
  confidence_scores : List String
  response_times : List Nat
  sources_used : List String
  user_feedback : List (String × String × String)
deriving DecidableEq

/-- One entry of `uploaded_documents` (the `doc_info` dictionary built by
`process_files` in `src/pages/home.py`). -/
structure DocInfo where
  filename : String
  size : Nat
  docType : String
  content : String
  chunks : Nat
  timestamp : Nat
deriving DecidableEq

/-- The Streamlit session state fields set by `initialize_session_state`.
The cached AWS clients are modelled as opaque presence flags. -/
structure SessionState where
  config_validated : Bool
  uploaded_documents : List DocInfo
  doc_count : Nat
  chat_history : List ChatMessage
  current_conversation : List ChatMessage
  query_count : Nat
  query_history : List String
  analytics_data : AnalyticsData
  kendra_client : Bool
  bedrock_client : Bool
  show_sources : Bool
  streaming_enabled : Bool
deriving DecidableEq

/-- The session state established by `initialize_session_state` on a fresh
session (every key absent, so every default is written). -/
def initialState : SessionState where
  config_validated := false
  uploaded_documents := []
  doc_count := 0
  chat_history := []
  current_conversation := []
  query_count := 0
  query_history := []
  analytics_data := { queries := [], confidence_scores := [], response_times := []
                      sources_used := [], user_feedback := [] }
  kendra_client := false
  bedrock_client := false
  show_sources := true
  streaming_enabled := true

/-- `add_to_chat_history`: appends the message to both `chat_history` and
`current_conversation`.  `now` stands for `datetime.now().isoformat()`. -/
def add_to_chat_history (st : SessionState) (role content : String)
    (sources : Option (List String)) (confidence : Option String) (now : String) :
    SessionState :=
  let message : ChatMessage :=
    { role := role, content := content, timestamp := now
      sources := sources.getD [], confidence := confidence }
  { st with
    chat_history := st.chat_history ++ [message]
    current_conversation := st.current_conversation ++ [message] }

/-- `clear_chat_history`: resets `current_conversation` only. -/
def clear_chat_history (st : SessionState) : SessionState :=
  { st with current_conversation := [] }

/-- `increment_query_count`. -/
def increment_query_count (st : SessionState) : SessionState :=
  { st with query_count := st.query_count + 1 }

/-- `add_uploaded_document`: append, then set `doc_count` to the list
length. -/
def add_uploaded_document (st : SessionState) (doc_info : DocInfo) : SessionState :=
  let docs := st.uploaded_documents ++ [doc_info]
  { st with uploaded_documents := docs, doc_count := docs.length }

/-- The per-document delete button of `display_uploaded_documents`
(`src/pages/home.py`): `uploaded_documents.pop(idx)` followed by
`doc_count = len(uploaded_documents)`. -/
def delete_document_at (st : SessionState) (idx : Nat) : SessionState :=
  let docs := st.uploaded_documents.eraseIdx idx
  { st with uploaded_documents := docs, doc_count := docs.length }

/-- The clear-all button of `display_uploaded_documents`: only acts when
the document list is non-empty. -/
def clear_all_documents (st : SessionState) : SessionState :=
  if st.uploaded_documents.isEmpty then st
  else { st with uploaded_documents := [], doc_count := 0 }

/-! ## DocumentProcessor dispatch and the home-page pipeline
(`src/utils/document_processor.py`, `src/pages/home.py`) -/

/-- Python `str.split` with a one-character separator, at the character
level: `splitOnChar sep cs acc` splits `cs`, with `acc` the (reversed)
current field. -/
def splitOnChar (sep : Char) : List Char → List Char → List (List Char)
  | [], acc => [acc.reverse]
  | c :: rest, acc =>
    if c = sep then acc.reverse :: splitOnChar sep rest []
    else splitOnChar sep rest (c :: acc)

/-- `uploaded_file.name.split('.')[-1].lower()`. -/
def fileExtension (name : String) : String :=
  String.mk (((splitOnChar '.' name.toList []).getLastD []).map Char.toLower)

/-- An uploaded file: its name, byte size, and raw payload handed to the
format handlers. -/
structure UploadedFile where
  name : String
  size : Nat
deriving DecidableEq

/-- Format-specific metadata produced by a handler; every handler sets the
`format` key. -/
structure Metadata where
  format : String
  extra : List (String × String)
deriving DecidableEq

/-- The five format handlers (`process_pdf`, ..., `process_json`).  They
call external libraries (pypdf, python-docx, pandas, json), so they are
modelled as opaque fallible functions of the uploaded file. -/
structure Handlers where
  process_pdf : UploadedFile → Except String (String × Metadata)
  process_txt : UploadedFile → Except String (String × Metadata)
  process_docx : UploadedFile → Except String (String × Metadata)
  process_csv : UploadedFile → Except String (String × Metadata)
  process_json : UploadedFile → Except String (String × Metadata)

/-- Errors escaping `process_file`: the `ValueError("Unsupported file
type: ...")` of the dispatch, or an exception propagated from a handler. -/
inductive ProcessError where
  | unsupportedType (ext : String)
  | handlerFailed (msg : String)
deriving DecidableEq

/-- The `processors` dictionary lookup of `process_file`. -/
def lookupProcessor (ext : String) :
    Option (Handlers → UploadedFile → Except String (String × Metadata)) :=
  if ext = "pdf" then some (fun h => h.process_pdf)
  else if ext = "txt" then some (fun h => h.process_txt)
  else if ext = "docx" then some (fun h => h.process_docx)
  else if ext = "csv" then some (fun h => h.process_csv)
  else if ext = "json" then some (fun h => h.process_json)
  else none

/-- `metadata.update({'filename': ..., 'file_size': ..., 'file_type': ...})`. -/
def addCommonMetadata (m : Metadata) (f : UploadedFile) (ext : String) : Metadata :=
  { m with extra := m.extra ++
      [("filename", f.name), ("file_size", toString f.size), ("file_type", ext)] }

/-- `DocumentProcessor.process_file`: dispatch on the lower-cased filename
extension, fail with `unsupportedType` when it is not a `processors` key,
otherwise run the handler and attach the common metadata. -/
def process_file (h : Handlers) (f : UploadedFile) :
    Except ProcessError (String × Metadata) :=
  let ext := fileExtension f.name
  match lookupProcessor ext with
  | none => .error (.unsupportedType ext)
  | some p =>
    match p h f with
    | .error e => .error (.handlerFailed e)
    | .ok (text_content, metadata) => .ok (text_content, addCommonMetadata metadata f ext)

/-- `DocumentProcessor.validate_file`: size check, then extension check. -/
def validate_file (f : UploadedFile) (max_size_mb : Nat := 10) : Bool × String :=
  if f.size > max_size_mb * 1024 * 1024 then
    (false, "File size exceeds limit")
  else if ¬ (Config.SUPPORTED_FILE_TYPES.contains (fileExtension f.name)) then
    (false, "Unsupported file type")
  else
    (true, "")

/-- Per-file outcome reported by `process_files` (the `st.warning`,
`st.error`, `st.success` message emitted for the file). -/
inductive FileOutcome where
  | success (name : String)
  | invalid (name reason : String)
  | failed (name reason : String)
deriving DecidableEq

/-- The `doc_info` dictionary built for a successfully processed file.
`now` stands for `time.time()`. -/
def docInfoOf (f : UploadedFile) (text_content : String) (metadata : Metadata)
    (now : Nat) : DocInfo :=
  { filename := f.name
    size := f.size
    docType := metadata.format
    content := text_content
    chunks := ((chunk_text text_content.toList 1000 200).getD []).length
    timestamp := now }

/-- The loop body of `process_files` applied to one file: validate, then
extract, then chunk and record, classifying the outcome. -/
def processOneFile (h : Handlers) (max_size_mb : Nat) (f : UploadedFile)
    (now : Nat) : FileOutcome × Option DocInfo :=
  let v := validate_file f max_size_mb
  if v.1 = false then
    (.invalid f.name v.2, none)
  else
    match process_file h f with
    | .error e =>
      let msg := match e with
        | .unsupportedType ext => "Unsupported file type: " ++ ext
        | .handlerFailed m => m
      (.failed f.name msg, none)
    | .ok (text_content, metadata) =>
      (.success f.name, some (docInfoOf f text_content metadata now))

/-- The `for` loop of `process_files`, carrying the running state and the
`successful` / `failed` counters. -/
def processFilesLoop (h : Handlers) (max_size_mb : Nat) (now : Nat) :
    List UploadedFile → SessionState → Nat → Nat →
      SessionState × Nat × Nat × List FileOutcome
  | [], st, successful, failed => (st, successful, failed, [])
  | f :: rest, st, successful, failed =>
    match processOneFile h max_size_mb f now with
    | (outcome, none) =>
      let r := processFilesLoop h max_size_mb now rest st successful (failed + 1)
      (r.1, r.2.1, r.2.2.1, outcome :: r.2.2.2)
    | (outcome, some doc_info) =>
      let r := processFilesLoop h max_size_mb now rest (add_uploaded_document st doc_info)
        (successful + 1) failed
      (r.1, r.2.1, r.2.2.1, outcome :: r.2.2.2)

/-- `process_files` (`src/pages/home.py`): iterate over the uploaded files
in order, isolate per-file failures, append each successful document to the
session state, and tally successes and failures (both starting at 0).
Returns the final state, the `(successful, failed)` counters, and the
per-file outcomes in input order. -/
def process_files (h : Handlers) (max_size_mb : Nat) (now : Nat)
    (files : List UploadedFile) (st : SessionState) :
    SessionState × Nat × Nat × List FileOutcome :=
  processFilesLoop h max_size_mb now files st 0 0

/-- Handlers for which every format handler fails; used to exercise paths
that must not depend on any handler. -/
def trivialHandlers : Handlers where
  process_pdf := fun _ => .error "no pdf handler"
  process_txt := fun _ => .error "no txt handler"
  process_docx := fun _ => .error "no docx handler"
  process_csv := fun _ => .error "no csv handler"
  process_json := fun _ => .error "no json handler"

/-- A Kendra client whose every API call fails; used to exercise the
error-handling paths of `KendraService`. -/
def failingClient : KendraClient where
  queryApi := fun _ _ _ => .error "boom"
  batchPutApi := fun _ _ => .error "boom"
  batchDeleteApi := fun _ _ => .error "boom"
  suggestionsApi := fun _ _ _ => .error "boom"
  describeApi := fun _ => .error "boom"

/-- A Kendra client whose `query` API echoes the requested page size in the
id of a single result item, making the page size passed by the service
observable. -/
def echoPageSizeClient : KendraClient where
  queryApi := fun _ _ page_size =>
    .ok { ResultItems := [{ itemId := some (toString page_size)
                            itemType := none
                            scoreConfidence := none
                            documentTitleText := none
                            documentExcerptText := none
                            documentURI := none
                            documentAttributes := [] }] }
  batchPutApi := fun _ _ => .error "unused"
  batchDeleteApi := fun _ _ => .error "unused"
  suggestionsApi := fun _ _ _ => .error "unused"
  describeApi := fun _ => .error "unused"

theorem pyIndex_natCast (len n : Nat) : pyIndex len (n : Int) = min n len := by
  unfold pyIndex
  rw [if_neg (by omega), Int.toNat_natCast]

theorem pySlice_take_drop (l : List Char) (start cs : Nat) (h : start ≤ l.length) :
    pySlice l (start : Int) ((start : Int) + (cs : Int)) = (l.drop start).take cs := by
  have hc : ((start : Int) + (cs : Int)) = ((start + cs : Nat) : Int) := by push_cast; ring
  rw [hc]
  unfold pySlice
  rw [pyIndex_natCast, pyIndex_natCast, min_eq_left h, List.drop_take, List.take_eq_take]
  simp only [List.length_drop]
  omega

theorem ceil_div_succ (m s : Nat) (hm : 1 ≤ m) (hs : 1 ≤ s) :
    (m + s - 1) / s = (m - s + s - 1) / s + 1 := by
  have h1 : m + s - 1 = (m - 1) + s := by omega
  rw [h1, Nat.add_div_right _ hs]
  rcases le_or_lt s m with h | h
  · have h2 : m - s + s - 1 = m - 1 := by omega
    rw [h2]
  · have h2 : m - s + s - 1 = s - 1 := by omega
    rw [h2, Nat.div_eq_of_lt (by omega), Nat.div_eq_of_lt (by omega)]

theorem chunkTextAux_eq (chunk_size overlap : Nat) (text : List Char)
    (hov : overlap < chunk_size) :
    ∀ (fuel : Nat) (start : Nat), text.length - start < fuel →
      chunkTextAux chunk_size overlap text fuel (start : Int) =
        some ((List.range
            ((text.length - start + (chunk_size - overlap) - 1) / (chunk_size - overlap))).map
          (fun i => (text.drop (start + i * (chunk_size - overlap))).take chunk_size)) := by
  intro fuel
  induction fuel with
  | zero => intro start h; omega
  | succ fuel ih =>
    intro start h
    by_cases hlt : start < text.length
    · have hcond : (start : Int) < (text.length : Int) := by exact_mod_cast hlt
      have harg : (start : Int) + (chunk_size : Int) - (overlap : Int) =
          ((start + (chunk_size - overlap) : Nat) : Int) := by push_cast; omega
      simp only [chunkTextAux, if_pos hcond, harg,
        ih (start + (chunk_size - overlap)) (by omega)]
      have hn : (text.length - start + (chunk_size - overlap) - 1) / (chunk_size - overlap) =
          (text.length - (start + (chunk_size - overlap)) + (chunk_size - overlap) - 1) /
            (chunk_size - overlap) + 1 := by
        have hstep := ceil_div_succ (text.length - start) (chunk_size - overlap)
          (by omega) (by omega)
        have hsub : text.length - start - (chunk_size - overlap) =
            text.length - (start + (chunk_size - overlap)) := by omega
        rw [hsub] at hstep
        exact hstep
      rw [hn, List.range_succ_eq_map, List.map_cons, List.map_map]
      have hhead : pySlice text (start : Int) ((start : Int) + (chunk_size : Int)) =
          (text.drop (start + 0 * (chunk_size - overlap))).take chunk_size := by
        rw [pySlice_take_drop text start chunk_size (by omega)]
        simp
      have htail :
          ((fun i => (text.drop (start + i * (chunk_size - overlap))).take chunk_size) ∘
              Nat.succ) =
            (fun i =>
              (text.drop (start + (chunk_size - overlap) + i * (chunk_size - overlap))).take
                chunk_size) := by
        funext i
        simp only [Function.comp]
        congr 2
        rw [Nat.succ_mul]
        ring
      rw [hhead, htail]
    · have hcond : ¬ ((start : Int) < (text.length : Int)) := by
        simp only [not_lt]
        exact_mod_cast Nat.le_of_not_lt hlt
      simp only [chunkTextAux, if_neg hcond]
      have h0 : text.length - start = 0 := by omega
      rw [h0, Nat.zero_add, Nat.div_eq_of_lt (by omega)]
      simp

theorem chunk_text_eq_chunkList (text : List Char) (chunk_size overlap : Nat)
    (h : overlap < chunk_size) :
    chunk_text text chunk_size overlap = some (chunkList text chunk_size overlap) := by
  have hmain := chunkTextAux_eq chunk_size overlap text h (text.length + 1) 0 (by omega)
  simpa [chunk_text, chunkList] using hmain

/-- C1 is false as stated: for a 10-character text with `chunk_size = 5` and
`overlap = 2` (so `len(T) > overlap`), the code produces 4 chunks, while the
claimed formula `ceil((len(T) - overlap) / (chunk_size - overlap))` gives 3. -/
theorem chunk_text_count_cex :
    2 < 5 ∧ 2 < "abcdefghij".toList.length ∧
    (chunk_text "abcdefghij".toList 5 2).map List.length ≠
      some (("abcdefghij".toList.length - 2 + (5 - 2) - 1) / (5 - 2)) := by
  decide

/-- C1 (amended): for `overlap < chunk_size`, the number of chunks returned by
`chunk_text` equals `ceil(len(T) / (chunk_size - overlap))` — which is 0 when
`T` is empty (the formula below is the natural-number form of that ceiling). -/
theorem chunk_text_count (text : List Char) (chunk_size overlap : Nat)
    (h : overlap < chunk_size) :
    (chunk_text text chunk_size overlap).map List.length =
      some ((text.length + (chunk_size - overlap) - 1) / (chunk_size - overlap)) := by
  rw [chunk_text_eq_chunkList text chunk_size overlap h]
  simp [chunkList]

/-- Witness for C1 (amended): a 10-character text with `chunk_size = 5`,
`overlap = 2` yields `ceil(10 / 3) = 4` chunks. -/
theorem chunk_text_count_witness :
    (chunk_text "abcdefghij".toList 5 2).map List.length = some 4 := by
  rw [chunk_text_count "abcdefghij".toList 5 2 (by decide)]
  decide

/-- With `chunk_size ≤ overlap` the window start `start = start + chunk_size -
overlap` never increases, so the guard `start < len(text)` of a non-empty text
stays true forever. -/
theorem chunkTextAux_none_of_nonpos (chunk_size overlap : Nat)
    (hov : chunk_size ≤ overlap) (text : List Char) (ht : text ≠ []) :
    ∀ (fuel : Nat) (start : Int), start ≤ 0 →
      chunkTextAux chunk_size overlap text fuel start = none
  | 0, _, _ => rfl
  | fuel + 1, start, hstart => by
    have hlen : 0 < text.length := List.length_pos.mpr ht
    have hcond : start < (text.length : Int) := by
      have h0 : (0 : Int) < (text.length : Int) := by exact_mod_cast hlen
      omega
    simp only [chunkTextAux, if_pos hcond,
      chunkTextAux_none_of_nonpos chunk_size overlap hov text ht fuel
        (start + chunk_size - overlap) (by omega)]

/-- C2: `chunk_text` contains no `InvalidChunkConfig` guard: whenever
`overlap ≥ chunk_size` and the text is non-empty, no amount of fuel makes the
`while` loop terminate — the code loops forever instead of raising. -/
theorem chunk_text_diverges (chunk_size overlap : Nat) (hov : chunk_size ≤ overlap)
    (text : List Char) (ht : text ≠ []) (fuel : Nat) :
    chunkTextAux chunk_size overlap text fuel 0 = none :=
  chunkTextAux_none_of_nonpos chunk_size overlap hov text ht fuel 0 le_rfl

/-- Witness for C2 at the spec's concrete input `chunk(text, 100, 100)`. -/
theorem chunk_text_diverges_witness :
    chunkTextAux 100 100 "a".toList 1000 0 = none :=
  chunk_text_diverges 100 100 (by decide) "a".toList (by decide) 1000

/-- C4 is false as stated: for text `"abcdef"`, `chunk_size = 4`,
`overlap = 3` the code yields 6 chunks; the adjacent pair (3, 4) is not the
last pair (that is (4, 5)), yet the last 3 characters of chunk 3 (`"def"`)
differ from the first 3 characters of chunk 4 (`"ef"`). -/
theorem chunk_text_overlap_cex :
    3 < 4 ∧
    chunk_text "abcdef".toList 4 3 =
      some ["abcd".toList, "bcde".toList, "cdef".toList,
            "def".toList, "ef".toList, "f".toList] ∧
    lastChars 3 "def".toList ≠ ("ef".toList).take 3 := by
  decide

/-- C4 (amended): for `overlap < chunk_size` and every adjacent chunk pair
whose left chunk has full length `chunk_size`, the last `overlap` characters
of the left chunk equal the first `overlap` characters of the right chunk.
(When `2·overlap ≤ chunk_size + 1` every non-last chunk is full, so this
subsumes the original claim in that regime.) -/
theorem chunk_text_overlap (text : List Char) (chunk_size overlap : Nat)
    (h : overlap < chunk_size) (l : List (List Char))
    (hl : chunk_text text chunk_size overlap = some l)
    (i : Nat) (hi : i + 1 < l.length)
    (hfull : (l.getD i []).length = chunk_size) :
    lastChars overlap (l.getD i []) = (l.getD (i + 1) []).take overlap := by
  rw [chunk_text_eq_chunkList text chunk_size overlap h] at hl
  obtain rfl : chunkList text chunk_size overlap = l := Option.some.inj hl
  set s := chunk_size - overlap with hs
  have hlen : (chunkList text chunk_size overlap).length =
      (text.length + s - 1) / s := by
    simp [chunkList, hs]
  have hget : ∀ j, j < (chunkList text chunk_size overlap).length →
      (chunkList text chunk_size overlap).getD j [] =
        (text.drop (j * s)).take chunk_size := by
    intro j hj
    rw [List.getD_eq_getElem _ _ hj]
    simp [chunkList, hs]
  rw [hget i (by omega), hget (i + 1) hi]
  rw [hget i (by omega)] at hfull
  unfold lastChars
  rw [hfull, List.drop_take, List.drop_drop, List.take_take]
  have hov : chunk_size - (chunk_size - overlap) = overlap := by omega
  have hmin : min overlap chunk_size = overlap := min_eq_left (le_of_lt h)
  rw [hov, hmin]
  congr 2
  rw [Nat.succ_mul]

/-- Witness for C4 (amended), at text `"abcdef"`, `chunk_size = 4`,
`overlap = 3`, pair (0, 1): both `"abcd"[-3:]` and `"bcde"[:3]` are `"bcd"`. -/
theorem chunk_text_overlap_witness :
    lastChars 3
        ((["abcd".toList, "bcde".toList, "cdef".toList,
           "def".toList, "ef".toList, "f".toList]).getD 0 []) =
      ((["abcd".toList, "bcde".toList, "cdef".toList,
         "def".toList, "ef".toList, "f".toList]).getD 1 []).take 3 :=
  chunk_text_overlap "abcdef".toList 4 3 (by decide)
    ["abcd".toList, "bcde".toList, "cdef".toList,
     "def".toList, "ef".toList, "f".toList]
    (by decide) 0 (by decide) (by decide)

/-- C3 is false as stated: calling `get_query_suggestions` before any client
is established returns the normal empty result, not a `NotConnected`
failure. -/
theorem not_connected_cex :
    (KendraService.mk none "idx").get_query_suggestions "q" 5 = .ok [] ∧
    (KendraService.mk none "idx").get_query_suggestions "q" 5 ≠
      .error .notConnected :=
  ⟨rfl, by simp [KendraService.get_query_suggestions]⟩

/-- C3 (amended): with no client established, `query`, `batch_put_document`,
`delete_document` and `describe_index` all fail with the not-connected error,
while `get_query_suggestions` instead returns an empty list. -/
theorem not_connected_behaviour (svc : KendraService) (hc : svc.client = none)
    (query_text : String) (max_results : Option Nat)
    (documents : List (String × String)) (document_id : String)
    (max_suggestions : Nat) :
    svc.query query_text max_results = .error .notConnected ∧
    svc.batch_put_document documents = .error .notConnected ∧
    svc.delete_document document_id = .error .notConnected ∧
    svc.describe_index = .error .notConnected ∧
    svc.get_query_suggestions query_text max_suggestions = .ok [] := by
  simp [KendraService.query, KendraService.batch_put_document,
    KendraService.delete_document, KendraService.describe_index,
    KendraService.get_query_suggestions, hc]

/-- Witness for C3 (amended) on a fresh, never-connected service. -/
theorem not_connected_behaviour_witness :
    (KendraService.mk none "idx").query "q" none = .error .notConnected ∧
    (KendraService.mk none "idx").batch_put_document [] = .error .notConnected ∧
    (KendraService.mk none "idx").delete_document "d" = .error .notConnected ∧
    (KendraService.mk none "idx").describe_index = .error .notConnected ∧
    (KendraService.mk none "idx").get_query_suggestions "q" 5 = .ok [] :=
  not_connected_behaviour (KendraService.mk none "idx") rfl "q" none [] "d" 5

/-- C6: if the backend suggestions call fails for any reason,
`get_query_suggestions` returns an empty list instead of propagating the
error. -/
theorem suggestions_degrade (c : KendraClient) (index_id query_text : String)
    (max_suggestions : Nat) (e : String)
    (hb : c.suggestionsApi index_id query_text max_suggestions = .error e) :
    (KendraService.mk (some c) index_id).get_query_suggestions
      query_text max_suggestions = .ok [] := by
  simp [KendraService.get_query_suggestions, hb]

/-- Witness for C6 with a client whose suggestions API always fails. -/
theorem suggestions_degrade_witness :
    (KendraService.mk (some failingClient) "idx").get_query_suggestions "q" 5
      = .ok [] :=
  suggestions_degrade failingClient "idx" "q" 5 "boom" rfl

/-- C7: `process_file` dispatches on the lower-cased filename extension; a
filename whose extension is outside {pdf, txt, docx, csv, json} yields the
unsupported-type error, and the result is the same for every choice of
format handlers — no handler is invoked. -/
theorem process_file_unsupported (h : Handlers) (f : UploadedFile)
    (hext : fileExtension f.name ∉ Config.SUPPORTED_FILE_TYPES) :
    process_file h f = .error (.unsupportedType (fileExtension f.name)) ∧
    (∀ h' : Handlers, process_file h' f = process_file h f) := by
  simp only [Config.SUPPORTED_FILE_TYPES, List.mem_cons, List.not_mem_nil,
    or_false] at hext
  push_neg at hext
  obtain ⟨h1, h2, h3, h4, h5⟩ := hext
  refine ⟨?_, fun h' => ?_⟩ <;>
    simp [process_file, lookupProcessor, h1, h2, h3, h4, h5]

/-- Witness for C7: a filename ending `.XYZ` has lower-cased extension
`xyz` and is rejected without consulting any handler. -/
theorem process_file_unsupported_witness :
    fileExtension "report.XYZ" = "xyz" ∧
    process_file trivialHandlers (UploadedFile.mk "report.XYZ" 3) =
      .error (.unsupportedType (fileExtension "report.XYZ")) :=
  ⟨by decide,
   (process_file_unsupported trivialHandlers (UploadedFile.mk "report.XYZ" 3)
      (by decide)).1⟩

/-- C8: `query` returns the normalized results in exactly the order of the
backend's `ResultItems` (no re-ranking), and when `max_results` is not
supplied the page size passed to the backend is
`Config.KENDRA_MAX_RESULTS`. -/
theorem query_order_and_default (c : KendraClient) (index_id query_text : String)
    (max_results : Nat) (resp respDefault : QueryResponse)
    (hb : c.queryApi index_id query_text max_results = .ok resp)
    (hbd : c.queryApi index_id query_text Config.KENDRA_MAX_RESULTS =
      .ok respDefault) :
    (KendraService.mk (some c) index_id).query query_text (some max_results) =
      .ok { query := query_text
            total_results := resp.ResultItems.length
            items := resp.ResultItems.map normalizeItem } ∧
    (KendraService.mk (some c) index_id).query query_text none =
      .ok { query := query_text
            total_results := respDefault.ResultItems.length
            items := respDefault.ResultItems.map normalizeItem } := by
  constructor <;> simp [KendraService.query, hb, hbd]

/-- Witness for C8 with a client that echoes the requested page size as the
single result id: with `max_results` missing, the id comes back as `"5"`,
the configured `KENDRA_MAX_RESULTS`. -/
theorem query_order_and_default_witness :
    (KendraService.mk (some echoPageSizeClient) "idx").query "q" none =
      .ok { query := "q"
            total_results := 1
            items := [{ resultId := "5", resultType := "", score := "UNKNOWN",
                        document_title := "Untitled", document_excerpt := "",
                        document_uri := "", attributes := [] }] } :=
  (query_order_and_default echoPageSizeClient "idx" "q" 7
    (QueryResponse.mk [ResultItem.mk (some "7") none none none none none []])
    (QueryResponse.mk [ResultItem.mk (some "5") none none none none none []])
    rfl rfl).2

/-- Loop invariant of `process_files`: the counters sum to the number of
files seen, the outcome list mirrors the input files one by one, and the
session document list grows by exactly the successfully processed files, in
input order. -/
theorem processFilesLoop_spec (h : Handlers) (max_size_mb now : Nat) :
    ∀ (files : List UploadedFile) (st : SessionState) (s0 f0 : Nat),
      (processFilesLoop h max_size_mb now files st s0 f0).2.1 +
          (processFilesLoop h max_size_mb now files st s0 f0).2.2.1 =
        s0 + f0 + files.length ∧
      (processFilesLoop h max_size_mb now files st s0 f0).2.2.2 =
        files.map (fun f => (processOneFile h max_size_mb f now).1) ∧
      (processFilesLoop h max_size_mb now files st s0 f0).1.uploaded_documents =
        st.uploaded_documents ++
          files.filterMap (fun f => (processOneFile h max_size_mb f now).2)
  | [], st, s0, f0 => by simp [processFilesLoop]
  | f :: rest, st, s0, f0 => by
    rcases hone : processOneFile h max_size_mb f now with ⟨outcome, odoc⟩
    rcases odoc with _ | doc
    · obtain ⟨ih1, ih2, ih3⟩ :=
        processFilesLoop_spec h max_size_mb now rest st s0 (f0 + 1)
      refine ⟨?_, ?_, ?_⟩ <;>
        simp only [processFilesLoop, hone, List.map_cons, List.filterMap_cons,
          List.length_cons]
      · omega
      · rw [ih2]
      · rw [ih3]
    · obtain ⟨ih1, ih2, ih3⟩ :=
        processFilesLoop_spec h max_size_mb now rest
          (add_uploaded_document st doc) (s0 + 1) f0
      refine ⟨?_, ?_, ?_⟩ <;>
        simp only [processFilesLoop, hone, List.map_cons, List.filterMap_cons,
          List.length_cons]
      · omega
      · rw [ih2]
      · rw [ih3]
        simp [add_uploaded_document]

/-- C5: per-file failures are isolated: `process_files` walks the uploaded
files in input order, the reported per-file outcome list mirrors the input
one-to-one (each outcome a function of its own file only), the success and
failure counters sum to the number of input files, and exactly the
successfully processed documents are appended, in input order, to the
session document list. -/
theorem process_files_isolation (h : Handlers) (max_size_mb now : Nat)
    (files : List UploadedFile) (st : SessionState) :
    (process_files h max_size_mb now files st).2.1 +
        (process_files h max_size_mb now files st).2.2.1 = files.length ∧
    (process_files h max_size_mb now files st).2.2.2 =
      files.map (fun f => (processOneFile h max_size_mb f now).1) ∧
    (process_files h max_size_mb now files st).1.uploaded_documents =
      st.uploaded_documents ++
        files.filterMap (fun f => (processOneFile h max_size_mb f now).2) := by
  have hspec := processFilesLoop_spec h max_size_mb now files st 0 0
  simpa [process_files] using hspec

/-- C9: `doc_count` equals the length of `uploaded_documents` after adding a
document, after deleting one by index, and (when the counter was consistent
before, as guaranteed by initialization) after the clear-all operation. -/
theorem doc_count_invariant (st : SessionState) (doc_info : DocInfo) (idx : Nat)
    (hinv : st.doc_count = st.uploaded_documents.length) :
    (add_uploaded_document st doc_info).doc_count =
      (add_uploaded_document st doc_info).uploaded_documents.length ∧
    (delete_document_at st idx).doc_count =
      (delete_document_at st idx).uploaded_documents.length ∧
    (clear_all_documents st).doc_count =
      (clear_all_documents st).uploaded_documents.length := by
  refine ⟨rfl, rfl, ?_⟩
  unfold clear_all_documents
  by_cases hemp : st.uploaded_documents.isEmpty <;> simp [hemp, hinv]

/-- Witness for C9 on the freshly initialized session state. -/
theorem doc_count_invariant_witness :
    (add_uploaded_document initialState
        (DocInfo.mk "a.txt" 1 "TXT" "hello" 1 0)).doc_count =
      (add_uploaded_document initialState
        (DocInfo.mk "a.txt" 1 "TXT" "hello" 1 0)).uploaded_documents.length ∧
    (delete_document_at initialState 0).doc_count =
      (delete_document_at initialState 0).uploaded_documents.length ∧
    (clear_all_documents initialState).doc_count =
      (clear_all_documents initialState).uploaded_documents.length :=
  doc_count_invariant initialState (DocInfo.mk "a.txt" 1 "TXT" "hello" 1 0) 0 rfl

/-- C10: `clear_chat_history` resets only `current_conversation`; every
other session field is unchanged, and a message previously appended by
`add_to_chat_history` remains in `chat_history` after the clear. -/
theorem clear_chat_history_frame (st : SessionState) (role content now : String)
    (sources : Option (List String)) (confidence : Option String) :
    (clear_chat_history st).current_conversation = [] ∧
    (clear_chat_history st).chat_history = st.chat_history ∧
    (clear_chat_history st).query_count = st.query_count ∧
    (clear_chat_history st).query_history = st.query_history ∧
    (clear_chat_history st).analytics_data = st.analytics_data ∧
    (clear_chat_history st).uploaded_documents = st.uploaded_documents ∧
    (clear_chat_history st).doc_count = st.doc_count ∧
    (clear_chat_history st).config_validated = st.config_validated ∧
    (clear_chat_history st).kendra_client = st.kendra_client ∧
    (clear_chat_history st).bedrock_client = st.bedrock_client ∧
    (clear_chat_history st).show_sources = st.show_sources ∧
    (clear_chat_history st).streaming_enabled = st.streaming_enabled ∧
    (clear_chat_history
        (add_to_chat_history st role content sources confidence now)).chat_history =
      st.chat_history ++
        [{ role := role, content := content, timestamp := now,
           sources := sources.getD [], confidence := confidence }] := by
  simp [clear_chat_history, add_to_chat_history]

end AwsKendra
